import Mathlib

/-!
Verification of the WhatsApp bot message-processing pipeline
(`src/main.py`, `src/worker.py`, `src/handlers.py`, `src/services/*`).

The Python code is shallowly embedded: every external call (gateway, LLM,
transcription, persistence) is replaced by a value supplied in an `Env`
record, and the observable behaviour of one pipeline run is the ordered
list of `Effect`s it emits.  Pure helpers (`check_rate_limit`,
`_should_reply_in_group`, command matching, string munging) are translated
function-by-function from the source.
-/

namespace WABot

/-! ## Python string primitives

Python `str` operations used by the source, modelled on `List Char` /
`String`.  `str.lower()` is modelled for the alphabets that actually occur
in the program (ASCII and the Cyrillic block); `str.strip()` and
`str.split(maxsplit=1)` use Python's whitespace class restricted to its
ASCII members. -/

/-- Whitespace characters recognised by Python's `str.strip` / `str.split`
(ASCII part). -/
def isPySpace (c : Char) : Bool :=
  c = ' ' || c = '\t' || c = '\n' || c = '\x0d' || c = '\x0b' || c = '\x0c'

/-- Word characters for the regex `\b` boundary in `_should_reply_in_group`:
Python's `\w` (letters, digits, underscore) restricted to ASCII
alphanumerics plus the Cyrillic block U+0400–U+04FF used by the bot. -/
def isWordChar (c : Char) : Bool :=
  c.isAlphanum || c = '_' || (0x400 ≤ c.toNat && c.toNat ≤ 0x4FF)

/-- `str.lower()` for one character, covering ASCII `A`–`Z` and the
Cyrillic capitals А–Я (U+0410–U+042F) and Ё (U+0401) that the program's
texts use. -/
def pyLowerChar (c : Char) : Char :=
  if 'A' ≤ c && c ≤ 'Z' then Char.ofNat (c.toNat + 32)
  else if 0x410 ≤ c.toNat && c.toNat ≤ 0x42F then Char.ofNat (c.toNat + 0x20)
  else if c.toNat = 0x401 then Char.ofNat 0x451
  else c

/-- `str.lower()`. -/
def pyLower (s : String) : String := ⟨s.data.map pyLowerChar⟩

/-- Drop trailing whitespace of a character list. -/
def dropTrailingSpaces (l : List Char) : List Char :=
  (l.reverse.dropWhile isPySpace).reverse

/-- `str.strip()` on a character list. -/
def stripChars (l : List Char) : List Char :=
  dropTrailingSpaces (l.dropWhile isPySpace)

/-- `str.strip()`. -/
def pyStrip (s : String) : String := ⟨stripChars s.data⟩

/-- `str.startswith(pre)`. -/
def pyStartsWith (s pre : String) : Bool := pre.data.isPrefixOf s.data

/-- `str.endswith(suf)`. -/
def pyEndsWith (s suf : String) : Bool := suf.data.reverse.isPrefixOf s.data.reverse

/-- Character-index slice `s[n:]`. -/
def strDrop (s : String) (n : Nat) : String := ⟨s.data.drop n⟩

/-- `str.split(maxsplit=1)` on a string: first whitespace-separated token
and, when any non-whitespace material follows it, the remainder (with the
separating whitespace run removed).  The callers in `worker.py` apply it to
`text.strip()`, so the input carries no trailing whitespace. -/
def pySplit1 (s : String) : String × Option String :=
  let l := s.data.dropWhile isPySpace
  let tok := l.takeWhile (fun c => !isPySpace c)
  let rest := (l.dropWhile (fun c => !isPySpace c)).dropWhile isPySpace
  (⟨tok⟩, if rest.isEmpty then none else some ⟨rest⟩)

/-- Helper of `containsWholeWord`: scan `s` for an occurrence of `nick`
whose left neighbour (`prevIsWord`) and right neighbour are not word
characters. -/
def wwAux (nick : List Char) (prevIsWord : Bool) : List Char → Bool
  | [] => false
  | c :: rest =>
    (!prevIsWord && nick.isPrefixOf (c :: rest) &&
      (match (c :: rest).drop nick.length with
       | [] => true
       | d :: _ => !isWordChar d)) ||
    wwAux nick (isWordChar c) rest

/-- Embedding of `re.search(rf'\b{re.escape(nick)}\b', s)` for a nickname
made of word characters (the configured `"ботяра"` is): `s` contains
`nick` with non-word characters (or the string ends) on both sides. -/
def containsWholeWord (nick s : List Char) : Bool := wwAux nick false s

/-- The suffix of `s` after the last occurrence of `sep`, if any
(`s.split(sep)[-1]` when `sep` occurs in `s`). -/
def afterLastAux (sep : List Char) : List Char → Option (List Char)
  | [] => none
  | c :: rest =>
    match afterLastAux sep rest with
    | some r => some r
    | none =>
      if sep.isPrefixOf (c :: rest) then some ((c :: rest).drop sep.length)
      else none

/-- `s.split(sep)[-1]`: the part after the last occurrence of `sep`, or all
of `s` when `sep` does not occur. -/
def afterLast (sep s : List Char) : List Char := (afterLastAux sep s).getD s

/-- Substring containment (`needle in hay` on Python strings). -/
def containsSub (needle : List Char) : List Char → Bool
  | [] => needle.isEmpty
  | c :: rest => needle.isPrefixOf (c :: rest) || containsSub needle rest

/-- Python truthiness of an optional string combined with `or default`
(`x or default`). -/
def pyOr (o : Option String) (d : String) : String :=
  match o with
  | some s => if s = "" then d else s
  | none => d

/-! ## Admission control (`src/main.py`)

`check_rate_limit` and the `webhook` endpoint.  Redis keys are modelled as
functions; TTL expiry is not modelled, so every statement is about events
inside one dedup/rate window. -/

/-- `RATE_LIMIT_WINDOW = 60` seconds (`main.py:16`); recorded for
reference, expiry itself is outside the model. -/
def RATE_LIMIT_WINDOW : Nat := 60

/-- `RATE_LIMIT_MAX_REQUESTS = 30` (`main.py:17`). -/
def RATE_LIMIT_MAX_REQUESTS : Nat := 30

/-- Dedup keys live for 600 seconds (`main.py:92`); recorded for reference. -/
def DEDUP_TTL : Nat := 600

/-- The per-chat rolling counters (`ratelimit:{chat_id}` Redis keys). -/
def RateState : Type := String → Option Nat

/-- The dedup keys (`dedup:{id_message}` Redis keys). -/
def DedupState : Type := String → Bool

/-- `check_rate_limit(chat_id)` (`main.py:42-55`): missing counter is
created at 1 and the event allowed; a counter at the ceiling denies; else
the counter is incremented and the event allowed. -/
def checkRateLimit (r : RateState) (chatId : String) : Bool × RateState :=
  match r chatId with
  | none => (true, fun k => if k = chatId then some 1 else r k)
  | some c =>
    if RATE_LIMIT_MAX_REQUESTS ≤ c then (false, r)
    else (true, fun k => if k = chatId then some (c + 1) else r k)

/-- Webhook-level state: rate counters and dedup keys. -/
structure WebState where
  rate : RateState
  dedup : DedupState

/-- The fields of an inbound webhook body used by `webhook` (`main.py`):
`idMessage = ""` models a missing/falsy id, `chatId` carries the
`senderData.get("chatId", "unknown")` result. -/
structure WebhookEvent where
  typeWebhook : String
  idMessage : String
  chatId : String

/-- `webhook(request)` (`main.py:57-97`): filter by webhook type and
message id, then rate-limit (which increments the chat counter), then
dedup, then set the dedup record and enqueue.  Returns the new state, the
status string of the JSON reply, and whether the event was enqueued to the
worker (`process_message.delay`). -/
def webhook (st : WebState) (ev : WebhookEvent) : WebState × String × Bool :=
  if ev.typeWebhook ≠ "incomingMessageReceived" then (st, "ignored", false)
  else if ev.idMessage = "" then (st, "ignored", false)
  else
    let allowedRate := checkRateLimit st.rate ev.chatId
    let st2 : WebState := { rate := allowedRate.2, dedup := st.dedup }
    if !allowedRate.1 then (st2, "rate_limited", false)
    else if st2.dedup ev.idMessage then (st2, "duplicate", false)
    else
      ({ rate := st2.rate,
         dedup := fun k => if k = ev.idMessage then true else st2.dedup k },
       "received", true)

/-- Rate counters with no key set (all windows expired). -/
def emptyRate : RateState := fun _ => none

/-- State of the chat's counter after `n` admission attempts for `chat`
within one window, starting from an empty window. -/
def rateAfter (chat : String) : Nat → RateState
  | 0 => emptyRate
  | n + 1 => (checkRateLimit (rateAfter chat n) chat).2

/-- Whether the `k`-th event (1-based) for `chat` within the window is
admitted by `check_rate_limit`. -/
def admittedAt (chat : String) (k : Nat) : Bool :=
  (checkRateLimit (rateAfter chat (k - 1)) chat).1

/-! ## Worker data model (`src/worker.py`, `src/handlers.py`)

One pipeline run is a pure function from an inbound event and an
environment of external-call results to the ordered list of side effects
it performs. -/

/-- An observable side effect of one pipeline run, in execution order.
`chatLlmTurn` marks the conversational LLM invocation of
`_process_message_async` (worker.py:141); the `/summary` command's own
summarisation call is not this turn.  `addHistory`/`clearHistory` are
`context_service` persistence writes, `setModel` the write performed by
the `/model` command. -/
inductive Effect where
  | sendText (chatId text : String)
  | sendFileUpload (chatId path caption fileName : String)
  | downloadFile (url path : String)
  | removeFile (path : String)
  | addHistory (chatId role content : String)
  | clearHistory (chatId : String)
  | setAiEnabled (chatId : String) (v : Bool)
  | setTranscribeMode (chatId : String) (v : Bool)
  | setModel (chatId model : String)
  | blacklistAdd (userId : String)
  | blacklistRemove (userId : String)
  | chatLlmTurn
deriving DecidableEq, Repr

/-- A quoted-message reference inside `extendedTextMessageData.quotedMessage`
or `messageData.quotedMessage`; `stanzaId = ""` models a missing id. -/
structure QuotedMsg where
  stanzaId : String
  typeMessage : String
  textMessage : String
  extText : String
deriving DecidableEq, Repr

/-- The original message fetched by `green_api.get_message` for a quoted
audio reference; `senderName` already carries the
`original_msg.get("senderName", "Кто-то")` default. -/
structure OrigMsg where
  downloadUrl : String
  senderName : String
deriving DecidableEq, Repr

/-- One raw message returned by `green_api.get_chat_history` for the
`/summary` command.  `idMessage = ""` models an absent id (the code then
uses `'tmp'` in the scratch file name). -/
structure SumMsg where
  typeMessage : String
  senderName : String
  isOutgoing : Bool
  textMessage : String
  extText : String
  caption : String
  idMessage : String
  downloadUrl : String
deriving DecidableEq, Repr

/-- The fields of `messageData` read by the handlers.  `downloadUrl` and
text fields use `""` for a missing value (matching the `.get(..., "")`
defaults); `caption = none` models an absent caption key (the code then
substitutes a default). -/
structure MessageData where
  typeMessage : String
  textMessage : String
  extText : String
  extQuoted : Option QuotedMsg
  topQuoted : Option QuotedMsg
  downloadUrl : String
  caption : Option String
  idMessage : String
  buttonText : String
  buttonId : String
deriving DecidableEq, Repr

/-- The fields of one inbound webhook event used by
`_process_message_async`.  `senderId` carries the
`sender_data.get("sender", chat_id)` result and `senderName` the
`.get("senderName", "User")` default. -/
structure InboundEvent where
  typeWebhook : String
  chatId : String
  senderId : String
  senderName : String
  messageData : MessageData
deriving DecidableEq, Repr

/-- The configured settings read by the pipeline (`src/config.py`
defaults). `mediaDir` abstracts `os.path.join(os.getcwd(), "media")`. -/
structure Config where
  botNickname : String
  adminChatId : Option String
  openrouterModel : String
  mediaDir : String
  summaryPrompt : String

/-- The `config.py` defaults relevant here. -/
def cfgDefault : Config :=
  { botNickname := "ботяра"
    adminChatId := none
    openrouterModel := "llama-3.3-70b-versatile"
    mediaDir := "media"
    summaryPrompt := "Ты получаешь историю сообщений из группового чата. Создай краткое, структурированное резюме обсуждения. Выдели ключевые темы, решения и важные моменты. Отвечай на русском языке." }

/-- Results of all external calls one pipeline run can make.  Each field
replaces one collaborator call; `Option String` results use `none` for an
exception escaping that call.

`chatModel` is modelled from the spec: `context_service.get_model` /
`set_model` are called by `worker.py` but absent from the snapshot's
`context.py`; the spec's `ChatSettings` record carries
`preferred_model: optional string`, which this field returns. -/
structure Env where
  blacklisted : Bool
  transcribeMode : Bool
  aiEnabled : Bool
  history : List (String × String)
  chatModel : Option String
  apiKeyPresent : Bool
  llmOutcome : Option String
  sttResult : Option String
  audioDownloadOk : Bool
  quotedMsg : Option OrigMsg
  quotedStt : Option String
  quotedDownloadOk : Bool
  imageDownloadOk : Bool
  availableModels : List (String × String)
  blacklistUsers : List String
  searchResult : String
  drawPath : Option String
  drawPrompt : String
  drawSeed : Option Nat
  sendFileOk : Bool
  rawHistory : List SumMsg
  sumStt : String → Option String
  sumDownloadOk : String → Bool

/-- `LLMService.get_response` (`llm.py:131-218`): a missing API key or a
provider exception is converted into a returned error string, never
raised.  The provider-message formatting (lines 147-203) does not affect
the returned text and is omitted; `llmOutcome` is the provider's reply
(`none` = the call raised). -/
def llmGetResponse (cfg : Config) (env : Env) : String :=
  let useModel := pyOr env.chatModel cfg.openrouterModel
  if !env.apiKeyPresent then "Ошибка конфигурации: API ключ не настроен"
  else
    match env.llmOutcome with
    | some t => t
    | none => "Ошибка модели " ++ useModel ++ ". Попробуйте /model для списка."

/-- Whether the LLM call of this run fails (provider raises or the API key
is missing). -/
def llmFailed (env : Env) : Bool :=
  !env.apiKeyPresent || env.llmOutcome.isNone

/-- `_transcribe_quoted_audio` (`handlers.py:79-114`): fetch the original
message, download and transcribe its media, and format the result; every
failure mode degrades to a placeholder string.  `env.quotedStt = none`
models an exception inside the `try` block (then the scratch file is not
cleaned up); `env.quotedDownloadOk = false` models a failed download, so
`os.path.exists` is false and no removal happens. -/
def transcribeQuotedAudio (cfg : Config) (env : Env) (chatId stanzaId : String) :
    String × List Effect :=
  match env.quotedMsg with
  | none => ("[Голосовое сообщение]", [])
  | some m =>
    if m.downloadUrl = "" then ("[Голосовое сообщение - URL недоступен]", [])
    else
      let p := cfg.mediaDir ++ "/quoted_" ++ chatId ++ "_" ++ stanzaId ++ ".ogg"
      match env.quotedStt with
      | none => ("[Голосовое сообщение]", [Effect.downloadFile m.downloadUrl p])
      | some t =>
        let effs := Effect.downloadFile m.downloadUrl p ::
          (if env.quotedDownloadOk then [Effect.removeFile p] else [])
        if t = "" then ("[Голосовое сообщение - не удалось распознать]", effs)
        else ("[Голосовое сообщение от " ++ m.senderName ++ "]: " ++ t, effs)

/-- `_process_quoted_message` (`handlers.py:54-76`). -/
def processQuotedMessage (cfg : Config) (env : Env) (chatId : String) (q : QuotedMsg) :
    Option String × List Effect :=
  if (q.typeMessage = "audioMessage" || q.typeMessage = "voiceMessage") && q.stanzaId ≠ "" then
    let r := transcribeQuotedAudio cfg env chatId q.stanzaId
    (some r.1, r.2)
  else if q.typeMessage = "textMessage" then
    (if q.textMessage ≠ "" then some ("[Цитируемое сообщение]: " ++ q.textMessage) else none, [])
  else if q.typeMessage = "extendedTextMessage" then
    let t := if q.extText ≠ "" then q.extText else q.textMessage
    (if t ≠ "" then some ("[Цитируемое сообщение]: " ++ t) else none, [])
  else (none, [])

/-- `handle_extended_text_message` (`handlers.py:21-35`). -/
def handleExtendedTextMessage (cfg : Config) (env : Env) (chatId : String) (md : MessageData) :
    String × Option String × List Effect :=
  match md.extQuoted with
  | some q =>
    let r := processQuotedMessage cfg env chatId q
    (md.extText, r.1, r.2)
  | none => (md.extText, none, [])

/-- `handle_quoted_message` (`handlers.py:38-51`): same extraction, but the
quoted reference sits at `messageData.quotedMessage`. -/
def handleQuotedMessage (cfg : Config) (env : Env) (chatId : String) (md : MessageData) :
    String × Option String × List Effect :=
  match md.topQuoted with
  | some q =>
    let r := processQuotedMessage cfg env chatId q
    (md.extText, r.1, r.2)
  | none => (md.extText, none, [])

/-- Result of `handle_audio_message`: either the run aborts on an uncaught
exception (the surrounding Celery task catches and drops it), or it yields
the text content and the transcribe-mode skip flag. -/
inductive AudioResult where
  | crash (effs : List Effect)
  | res (text : String) (skip : Bool) (effs : List Effect)

/-- `handle_audio_message` (`handlers.py:117-152`).  `env.sttResult = none`
models an exception escaping the download/transcription (there is no
`try` here, so the task dies). -/
def handleAudioMessage (cfg : Config) (env : Env) (chatId : String) (md : MessageData) :
    AudioResult :=
  if md.downloadUrl = "" then .res "(Не удалось получить голосовое)" false []
  else
    let p := cfg.mediaDir ++ "/" ++ chatId ++ "_" ++ md.idMessage ++ ".ogg"
    match env.sttResult with
    | none => .crash [Effect.downloadFile md.downloadUrl p]
    | some t =>
      let effs := Effect.downloadFile md.downloadUrl p ::
        (if env.audioDownloadOk then [Effect.removeFile p] else [])
      if t = "" then .res "(Не удалось распознать голосовое сообщение)" false effs
      else if env.transcribeMode then
        .res t true (effs ++ [Effect.sendText chatId ("🎙️ *Транскрибация:*\n\n" ++ t)])
      else .res ("Пользователь отправил голосовое сообщение. Текст: " ++ t) false effs

/-- Structured multi-modal content for an image turn
(`{"text": caption, "files": [path]}`). -/
structure Structured where
  text : String
  files : List String
deriving DecidableEq, Repr

/-- `handle_image_message` (`handlers.py:155-178`). -/
def handleImageMessage (cfg : Config) (chatId : String) (md : MessageData) :
    String × Option Structured × Option String × List Effect :=
  if md.downloadUrl = "" then ("Пользователь прислал изображение.", none, none, [])
  else
    let p := cfg.mediaDir ++ "/" ++ chatId ++ "_" ++ md.idMessage ++ ".jpg"
    let caption := md.caption.getD "Пользователь прислал изображение."
    ("Пользователь прислал изображение. Подпись: " ++ caption,
     some { text := caption, files := [p] }, some p,
     [Effect.downloadFile md.downloadUrl p])

/-- `_should_reply_in_group` (`worker.py:155-170`): persisted toggle, else
whole-word nickname match, else nickname-then-space/comma at the start. -/
def shouldReplyInGroup (cfg : Config) (isEnabled : Bool) (text : String) : Bool :=
  let msgLower := pyLower text
  let botNickname := pyLower cfg.botNickname
  let isTriggered := containsWholeWord botNickname.data msgLower.data
  let isTriggered :=
    if !isTriggered then
      pyStartsWith msgLower (botNickname ++ " ") || pyStartsWith msgLower (botNickname ++ ",")
    else isTriggered
  isEnabled || isTriggered

/-- `_handle_button_action` (`worker.py:173-207`).  The `btn_help` branch
calls the undefined `_send_help_with_buttons`, so it raises `NameError`
and the task dies having emitted nothing. -/
def handleButtonAction (env : Env) (chatId buttonId : String) : List Effect :=
  if buttonId = "btn_reset" then
    [Effect.clearHistory chatId, Effect.sendText chatId "🔄 Память сброшена!"]
  else if buttonId = "btn_help" then []
  else if buttonId = "btn_transcribe" then
    [Effect.setTranscribeMode chatId (!env.transcribeMode),
     Effect.sendText chatId
       (if !env.transcribeMode then "🎙️ Транскрибация ВКЛ" else "🤖 Транскрибация ВЫКЛ")]
  else if buttonId = "btn_ai_on" then
    [Effect.setAiEnabled chatId true, Effect.sendText chatId "🤖 AI включен"]
  else if buttonId = "btn_ai_off" then
    [Effect.setAiEnabled chatId false, Effect.sendText chatId "😴 AI выключен"]
  else []

/-! ## Command dispatch (`worker.py:210-406` and `_handle_summary_command`) -/

/-- The `/help` reply text (`worker.py:236-247`). -/
def helpText (cfg : Config) : String :=
  "📚 *Команды бота:*\n\n🔄 /reset - сбросить память\n🤖 /ai on|off - автоответы в группе\n📋 /summary - резюме чата\n🎙️ /transcribe - транскрибация\n📊 /stats - статистика\n🔧 /model - сменить AI модель\n🔍 /search - поиск с AI-ответом\n🎨 /draw - генерация картинок\n\n💡 Ник: *" ++ cfg.botNickname ++ "*"

/-- The `/stats` reply text (`worker.py:260-271`). -/
def statsText (cfg : Config) (env : Env) : String :=
  "📊 *Статистика:*\n\n💬 Сообщений в памяти: " ++ toString env.history.length ++
  "\n🔧 Модель: " ++ pyOr env.chatModel cfg.openrouterModel ++
  "\n🤖 Ник: " ++ cfg.botNickname ++ "\n\nСмена модели: /model"

/-- The `/blacklist` reply text (`worker.py:398-403`). -/
def blacklistText (env : Env) : String :=
  if env.blacklistUsers.isEmpty then "Blacklist пуст"
  else "🚫 Blacklist:\n" ++ String.intercalate "\n" (env.blacklistUsers.map (fun u => "• " ++ u))

/-- The admin gate (`worker.py:383`): `ADMIN_CHAT_ID` is set (truthy) and
equals the sender id. -/
def isAdminSender (cfg : Config) (senderId : String) : Bool :=
  match cfg.adminChatId with
  | some a => a ≠ "" && senderId = a
  | none => false

/-- Insert a key-value pair into a key-sorted list. -/
def insertSorted (x : String × String) : List (String × String) → List (String × String)
  | [] => [x]
  | y :: ys => if x.1 ≤ y.1 then x :: y :: ys else y :: insertSorted x ys

/-- `sorted(available_models.items())`: dict items sorted; keys are unique,
so sorting by key matches Python's tuple order. -/
def sortByKey (l : List (String × String)) : List (String × String) :=
  l.foldr insertSorted []

/-- Effects of the `/model` branch (`worker.py:275-304`). -/
def modelCmdEffects (cfg : Config) (env : Env) (text chatId : String) : List Effect :=
  let models := env.availableModels
  let currentModel := pyOr env.chatModel cfg.openrouterModel
  let parts := pySplit1 (pyStrip text)
  match parts.2 with
  | none =>
    let lines := ("🔧 *Доступные модели (" ++ toString models.length ++ "):*\n") ::
      (sortByKey models).map (fun m =>
        (if m.1 = currentModel then "✅" else "•") ++ " `" ++ m.1 ++ "`\n   " ++ m.2)
    [Effect.sendText chatId (String.intercalate "\n" (lines ++ ["\n💡 Смена: /model <название>"]))]
  | some arg =>
    let newModel := pyStrip arg
    match models.lookup newModel with
    | some desc =>
      [Effect.setModel chatId newModel,
       Effect.sendText chatId ("✅ Модель изменена на:\n`" ++ newModel ++ "`\n" ++ desc)]
    | none =>
      [Effect.sendText chatId ("❌ Модель `" ++ newModel ++ "` не найдена.\nНапиши /model для списка.")]

/-- Effects of the `/search` branch (`worker.py:307-327`);
`search_and_summarize` catches internally and always returns a string
(`env.searchResult`). -/
def searchCmdEffects (env : Env) (text chatId : String) : List Effect :=
  let parts := pySplit1 (pyStrip text)
  match parts.2 with
  | none =>
    [Effect.sendText chatId "🔍 *Поиск в интернете*\n\nИспользование: /search <запрос>\nПример: /search погода Алматы\n\n💡 AI проанализирует результаты и даст ответ с источниками"]
  | some query =>
    [Effect.sendText chatId ("🔍 Ищу: _" ++ query ++ "_\n⏳ Анализирую источники..."),
     Effect.sendText chatId env.searchResult]

/-- `str(seed)` for the optional seed. -/
def seedRepr (s : Option Nat) : String :=
  match s with
  | some n => toString n
  | none => "None"

/-- Python truthiness of the optional seed (`if seed:`). -/
def seedTruthy (s : Option Nat) : Bool :=
  match s with
  | some n => n ≠ 0
  | none => false

/-- Effects of the `/draw` branch (`worker.py:330-372`).  `generate_image`
catches internally; `env.drawPath = some p` means it returned a written
file (so the `os.path.exists` guard passes), `none` the failure tuple. -/
def drawCmdEffects (env : Env) (text chatId : String) : List Effect :=
  let parts := pySplit1 (pyStrip text)
  match parts.2 with
  | none =>
    [Effect.sendText chatId "🎨 *Генерация изображений*\n\nИспользование: /draw <описание>\nПример: /draw кот в космосе\n\n💡 Промпт автоматически улучшается AI"]
  | some prompt =>
    Effect.sendText chatId ("🎨 Генерирую: _" ++ prompt ++ "_\n⏳ Улучшаю промпт и создаю изображение...") ::
    match env.drawPath with
    | some fp =>
      let preview := if 150 < env.drawPrompt.data.length
        then String.mk (env.drawPrompt.data.take 150) ++ "..." else env.drawPrompt
      let caption0 := "🎨 *" ++ prompt ++ "*\n\n✨ _" ++ preview ++ "_"
      let caption := if seedTruthy env.drawSeed
        then caption0 ++ "\n\n🌱 Seed: " ++ seedRepr env.drawSeed else caption0
      [Effect.sendFileUpload chatId fp caption ("art_" ++ seedRepr env.drawSeed ++ ".png"),
       Effect.removeFile fp] ++
      (if !env.sendFileOk
       then [Effect.sendText chatId "❌ Не удалось отправить картинку. Попробуйте ещё раз."]
       else [])
    | none =>
      [Effect.sendText chatId "❌ Ошибка генерации.\n\n💡 Попробуйте:\n• Другой промпт\n• Более простое описание\n• Английский язык"]

/-- One iteration of the `/summary` formatting loop
(`worker.py:422-455`): the formatted entry (if the message contributes
one), the audio-transcription count increment, and the media effects. -/
def summarizeOne (cfg : Config) (env : Env) (m : SumMsg) :
    Option String × Nat × List Effect :=
  let sender := if m.isOutgoing then "Бот" else m.senderName
  let entry := fun (c : String) => sender ++ ": " ++ c
  if m.typeMessage = "textMessage" then
    (if m.textMessage = "" then none else some (entry m.textMessage), 0, [])
  else if m.typeMessage = "extendedTextMessage" then
    (if m.extText = "" then none else some (entry m.extText), 0, [])
  else if m.typeMessage = "audioMessage" || m.typeMessage = "voiceMessage" then
    if m.downloadUrl = "" then (some (entry "[🎙️]"), 0, [])
    else
      let p := cfg.mediaDir ++ "/sum_" ++ (if m.idMessage = "" then "tmp" else m.idMessage) ++ ".ogg"
      match env.sumStt m.idMessage with
      | none => (some (entry "[🎙️]"), 0, [Effect.downloadFile m.downloadUrl p])
      | some t =>
        let effs := Effect.downloadFile m.downloadUrl p ::
          (if env.sumDownloadOk m.idMessage then [Effect.removeFile p] else [])
        if t = "" then (none, 0, effs)
        else (some (entry ("[🎙️]: " ++ t)), 1, effs)
  else if m.typeMessage = "imageMessage" then
    (some (entry ("[📷] " ++ m.caption)), 0, [])
  else (none, 0, [])

/-- The `/summary` loop over `reversed(raw_messages)`: collected entries,
audio count, and effects in order. -/
def summaryScan (cfg : Config) (env : Env) : List SumMsg → List String × Nat × List Effect
  | [] => ([], 0, [])
  | m :: rest =>
    let r := summarizeOne cfg env m
    let acc := summaryScan cfg env rest
    ((match r.1 with | some e => [e] | none => []) ++ acc.1,
     r.2.1 + acc.2.1, r.2.2 ++ acc.2.2)

/-- `MAX_CONTENT_CHARS` (`worker.py:463`). -/
def MAX_CONTENT_CHARS : Nat := 4000

/-- `_handle_summary_command` (`worker.py:409-476`).  The summarisation LLM
call reuses `llm_service.get_response`; in this model its reply is the
environment's `llmOutcome` (the prompt built from the history does not
influence any emitted effect beyond the reply text). -/
def summaryCmdEffects (cfg : Config) (env : Env) (chatId : String) : List Effect :=
  Effect.sendText chatId "⏳ Собираю сообщения..." ::
  (if env.rawHistory.isEmpty then [Effect.sendText chatId "Нет сообщений для суммаризации."]
   else
     let scan := summaryScan cfg env env.rawHistory.reverse
     scan.2.2 ++
     (if scan.1.isEmpty then [Effect.sendText chatId "Нет сообщений для суммаризации."]
      else
        let messagesText := String.intercalate "\n" scan.1
        let messagesText := if MAX_CONTENT_CHARS < messagesText.data.length
          then "...[обрезано]...\n" ++
            String.mk (messagesText.data.drop (messagesText.data.length - MAX_CONTENT_CHARS))
          else messagesText
        let _prompt := cfg.summaryPrompt ++ "\n\n--- История ---\n" ++ messagesText
        let summary := llmGetResponse cfg env
        let note := if scan.2.1 ≠ 0 then " (🎙️ " ++ toString scan.2.1 ++ ")" else ""
        [Effect.sendText chatId
          ("📋 *Резюме* (" ++ toString scan.1.length ++ " сообщений" ++ note ++ "):\n\n" ++ summary)]))

/-- Body of `_handle_commands` (`worker.py:210-406`) with the local
`cmd = text.strip().lower()` passed explicitly. -/
def handleCommandsCore (cfg : Config) (env : Env) (cmd text chatId senderId : String)
    (isGroup : Bool) : Bool × List Effect :=
  if cmd = "/ai on" then
    (true, [Effect.setAiEnabled chatId true, Effect.sendText chatId "🤖 Автоответы включены."])
  else if cmd = "/ai off" then
    (true, [Effect.setAiEnabled chatId false, Effect.sendText chatId "😴 Автоответы выключены."])
  else if cmd = "/reset" then
    (true, [Effect.clearHistory chatId, Effect.sendText chatId "🔄 Контекст сброшен."])
  else if cmd = "/help" then
    (true, [Effect.sendText chatId (helpText cfg)])
  else if cmd = "/transcribe" then
    (true, [Effect.setTranscribeMode chatId (!env.transcribeMode),
            Effect.sendText chatId
              (if !env.transcribeMode then "🎙️ Режим транскрибации ВКЛ"
               else "🤖 Режим транскрибации ВЫКЛ")])
  else if cmd = "/stats" then
    (true, [Effect.sendText chatId (statsText cfg env)])
  else if cmd = "/model" || pyStartsWith cmd "/model " then
    (true, modelCmdEffects cfg env text chatId)
  else if pyStartsWith cmd "/search " || cmd = "/search" then
    (true, searchCmdEffects env text chatId)
  else if pyStartsWith cmd "/draw " || cmd = "/draw" then
    (true, drawCmdEffects env text chatId)
  else if cmd = "/summary" then
    (true,
     if !isGroup then [Effect.sendText chatId "Команда доступна только в группах."]
     else summaryCmdEffects cfg env chatId)
  else if isAdminSender cfg senderId then
    if pyStartsWith (pyStrip text) "/ban " then
      let target := pyStrip (strDrop (pyStrip text) 5)
      (true,
       if target ≠ "" then
         [Effect.blacklistAdd target, Effect.sendText chatId ("🚫 " ++ target ++ " заблокирован")]
       else [])
    else if pyStartsWith (pyStrip text) "/unban " then
      let target := pyStrip (strDrop (pyStrip text) 7)
      (true,
       if target ≠ "" then
         [Effect.blacklistRemove target,
          Effect.sendText chatId ("✅ " ++ target ++ " разблокирован")]
       else [])
    else if cmd = "/blacklist" then (true, [Effect.sendText chatId (blacklistText env)])
    else (false, [])
  else (false, [])

/-- `_handle_commands` (`worker.py:210-406`): returns whether a command was
recognised (processing then stops) and the effects it performed. -/
def handleCommands (cfg : Config) (env : Env) (text chatId senderId : String)
    (isGroup : Bool) : Bool × List Effect :=
  handleCommandsCore cfg env (pyLower (pyStrip text)) text chatId senderId isGroup

/-! ## The pipeline (`_process_message_async`, `worker.py:44-152`) -/

/-- Outcome of the extraction phase (worker.py:65-96): either the run ends
inside it (wrong handler outcome: audio transcribe-mode skip, button
action, uncaught exception), or it continues into command/LLM handling
with the extracted content. -/
inductive Stage1 where
  | stop (effs : List Effect)
  | go (effs : List Effect) (text : String) (quoted : Option String)
       (structured : Option Structured) (filePath : Option String) (hasMedia : Bool)

/-- The extraction dispatch on `typeMessage` (worker.py:65-96).  Unhandled
message types leave `text_content` empty, which the caller then drops. -/
def extractContent (cfg : Config) (env : Env) (chatId : String) (md : MessageData) : Stage1 :=
  if md.typeMessage = "textMessage" then
    .go [] md.textMessage none none none false
  else if md.typeMessage = "extendedTextMessage" then
    let r := handleExtendedTextMessage cfg env chatId md
    .go r.2.2 r.1 r.2.1 none none false
  else if md.typeMessage = "quotedMessage" then
    let r := handleQuotedMessage cfg env chatId md
    .go r.2.2 r.1 r.2.1 none none false
  else if md.typeMessage = "audioMessage" || md.typeMessage = "voiceMessage" then
    match handleAudioMessage cfg env chatId md with
    | .crash effs => .stop effs
    | .res _ true effs => .stop effs
    | .res t false effs => .go effs t none none none false
  else if md.typeMessage = "imageMessage" then
    let r := handleImageMessage cfg chatId md
    .go r.2.2.2 r.1 none r.2.1 r.2.2.1 r.2.1.isSome
  else if md.typeMessage = "buttonsResponseMessage" then
    if md.buttonId ≠ "" then .stop (handleButtonAction env chatId md.buttonId)
    else .go [] "" none none none false
  else .go [] "" none none none false

/-- The message types `_process_message_async` dispatches on
(worker.py:72-96). -/
def handledTypes : List String :=
  ["textMessage", "extendedTextMessage", "quotedMessage", "audioMessage",
   "voiceMessage", "imageMessage", "buttonsResponseMessage"]

/-- The content stored for group summarisation (worker.py:113-115): for a
voice message whose text contains `"Текст:"`, only the part after the last
occurrence, stripped. -/
def groupStoreContent (typeMessage text : String) : String :=
  if (typeMessage = "audioMessage" || typeMessage = "voiceMessage") &&
      containsSub "Текст:".data text.data then
    String.mk (stripChars (afterLast "Текст:".data text.data))
  else text

/-- One full pipeline run `_process_message_async(event_data)`
(worker.py:44-152): the ordered effects it emits.  History reads, settings
reads and the blacklist check are reads and emit nothing. -/
def processMessage (cfg : Config) (env : Env) (ev : InboundEvent) : List Effect :=
  if ev.typeWebhook ≠ "incomingMessageReceived" then []
  else if env.blacklisted then []
  else
    match extractContent cfg env ev.chatId ev.messageData with
    | .stop effs => effs
    | .go effs text _quoted _structured filePath hasMedia =>
      effs ++
      (if text = "" then []
       else
         let isGroup := pyEndsWith ev.chatId "@g.us"
         let cmdRes := handleCommands cfg env text ev.chatId ev.senderId isGroup
         if cmdRes.1 then cmdRes.2
         else
           cmdRes.2 ++
           (if isGroup then
             [Effect.addHistory ev.chatId "user"
               (ev.senderName ++ ": " ++ groupStoreContent ev.messageData.typeMessage text)]
            else []) ++
           (if isGroup && !shouldReplyInGroup cfg env.aiEnabled text then []
            else
              let response := llmGetResponse cfg env
              [Effect.chatLlmTurn,
               Effect.addHistory ev.chatId "user" text,
               Effect.addHistory ev.chatId "assistant" response,
               Effect.sendText ev.chatId response] ++
              (match filePath with
               | some p => if hasMedia && env.imageDownloadOk then [Effect.removeFile p] else []
               | none => [])))

/-! ## Effect observations -/

/-- Whether an effect is an outbound reply (`send_message` or
`send_file_by_upload`). -/
def isSend : Effect → Bool
  | .sendText _ _ => true
  | .sendFileUpload _ _ _ _ => true
  | _ => false

/-- Whether an effect is the conversational LLM turn marker. -/
def isChatLlm : Effect → Bool
  | .chatLlmTurn => true
  | _ => false

/-- Whether an effect writes a chat-history record. -/
def isHistoryWrite : Effect → Bool
  | .addHistory _ _ _ => true
  | .clearHistory _ => true
  | _ => false

/-- Whether an effect writes any persisted record (history, settings or
blacklist). -/
def isStoreWrite : Effect → Bool
  | .addHistory _ _ _ => true
  | .clearHistory _ => true
  | .setAiEnabled _ _ => true
  | .setTranscribeMode _ _ => true
  | .setModel _ _ => true
  | .blacklistAdd _ => true
  | .blacklistRemove _ => true
  | _ => false

/-- Whether an effect appends a user-role history row. -/
def isUserHistoryAppend : Effect → Bool
  | .addHistory _ role _ => role = "user"
  | _ => false

/-- Number of outbound replies in a trace. -/
def sendCount (effs : List Effect) : Nat := effs.countP isSend

/-- Number of conversational LLM turns in a trace. -/
def chatLlmCount (effs : List Effect) : Nat := effs.countP isChatLlm

/-- Number of history writes in a trace. -/
def histWriteCount (effs : List Effect) : Nat := effs.countP isHistoryWrite

/-- Number of persisted-store writes in a trace. -/
def storeWriteCount (effs : List Effect) : Nat := effs.countP isStoreWrite

/-- Number of user-role history appends in a trace. -/
def userHistCount (effs : List Effect) : Nat := effs.countP isUserHistoryAppend

/-- Whether a trace contains a given effect. -/
def hasEff (effs : List Effect) (e : Effect) : Bool := effs.any (fun x => x = e)

/-- Whether an effect is a pure media-file effect (download or removal). -/
def isMediaEff : Effect → Bool
  | .downloadFile _ _ => true
  | .removeFile _ => true
  | _ => false

/-- A default environment used to instantiate concrete runs: every
external call succeeds. -/
def envDefault : Env :=
  { blacklisted := false
    transcribeMode := false
    aiEnabled := false
    history := []
    chatModel := none
    apiKeyPresent := true
    llmOutcome := some "Привет!"
    sttResult := some "тест"
    audioDownloadOk := true
    quotedMsg := none
    quotedStt := some ""
    quotedDownloadOk := true
    imageDownloadOk := true
    availableModels := [("llama-3.3-70b-versatile", "Meta | 128k контекст")]
    blacklistUsers := []
    searchResult := "результат поиска"
    drawPath := none
    drawPrompt := ""
    drawSeed := none
    sendFileOk := true
    rawHistory := []
    sumStt := fun _ => some ""
    sumDownloadOk := fun _ => true }

/-- A plain private-chat text message event. -/
def mkTextEvent (chatId text : String) : InboundEvent :=
  { typeWebhook := "incomingMessageReceived"
    chatId := chatId
    senderId := chatId
    senderName := "User"
    messageData :=
      { typeMessage := "textMessage"
        textMessage := text
        extText := ""
        extQuoted := none
        topQuoted := none
        downloadUrl := ""
        caption := none
        idMessage := "m1"
        buttonText := ""
        buttonId := "" } }

/-! ## Concrete instances used by counterexamples and witnesses -/

/-- Environment in which the LLM provider call raises. -/
def envC1 : Env := { envDefault with llmOutcome := none }

/-- A plain text message in a private chat. -/
def evC1 : InboundEvent := mkTextEvent "777@c.us" "привет"

/-- Environment of a group chat with auto-replies enabled. -/
def envC4 : Env := { envDefault with aiEnabled := true }

/-- A plain text message in a group chat. -/
def evC4 : InboundEvent := mkTextEvent "123@g.us" "привет"

/-- An image message (with caption) in a group chat. -/
def evC5 : InboundEvent :=
  { typeWebhook := "incomingMessageReceived"
    chatId := "123@g.us"
    senderId := "55@c.us"
    senderName := "User"
    messageData :=
      { typeMessage := "imageMessage"
        textMessage := ""
        extText := ""
        extQuoted := none
        topQuoted := none
        downloadUrl := "http://x/img"
        caption := some "смотри"
        idMessage := "m9"
        buttonText := ""
        buttonId := "" } }

/-- An image message in a private chat. -/
def evC5b : InboundEvent :=
  { evC5 with chatId := "77@c.us", senderId := "77@c.us" }

/-- Environment in which the quoted original message is fetchable with a
non-empty download URL but the transcription comes back empty. -/
def envC9 : Env :=
  { envDefault with
    quotedMsg := some { downloadUrl := "http://a", senderName := "Алиса" }
    quotedStt := some "" }

/-- Environment in which the quoted transcription succeeds. -/
def envC9b : Env := { envC9 with quotedStt := some "привет мир" }

/-- Webhook state: message `m1` already deduplicated, chat counter at 5. -/
def stC3 : WebState :=
  { rate := fun k => if k = "c@c.us" then some 5 else none
    dedup := fun m => m = "m1" }

/-- A replayed inbound event carrying the already-seen id `m1`. -/
def evC3 : WebhookEvent :=
  { typeWebhook := "incomingMessageReceived", idMessage := "m1", chatId := "c@c.us" }

/-- The empty webhook state (no dedup keys, no counters). -/
def stEmpty : WebState := { rate := emptyRate, dedup := fun _ => false }

/-- An unhandled message type (a sticker). -/
def evC10 : InboundEvent :=
  { mkTextEvent "777@c.us" "hi" with
    messageData := { (mkTextEvent "777@c.us" "hi").messageData with
      typeMessage := "stickerMessage" } }

/-! # Theorems

Helper lemmas first, then one theorem per claim (with its witness or
counterexample). -/

/-- The head surviving `dropWhile` falsifies the predicate. -/
theorem head_dropWhile {α : Type} (p : α → Bool) :
    ∀ (l : List α) (c : α) (t : List α), l.dropWhile p = c :: t → p c = false := by
  intro l
  induction l with
  | nil => intro c t h; simp [List.dropWhile] at h
  | cons a as ih =>
    intro c t h
    rw [List.dropWhile_cons] at h
    by_cases hp : p a
    · simp [hp] at h; exact ih c t h
    · simp [hp] at h; rw [← h.1]; simpa using hp

/-- A stripped string never ends in whitespace. -/
theorem stripChars_last_not_space (l : List Char) (c : Char) (t : List Char)
    (h : stripChars l = t ++ [c]) : isPySpace c = false := by
  unfold stripChars dropTrailingSpaces at h
  set m := (l.dropWhile isPySpace).reverse.dropWhile isPySpace with hm
  have hrev : m = (t ++ [c]).reverse := by rw [← h]; simp
  rw [List.reverse_append] at hrev
  simp at hrev
  exact head_dropWhile isPySpace _ c t.reverse hrev

/-- Stripping a list with a non-whitespace element yields a non-empty
list. -/
theorem stripChars_ne_nil (l : List Char) (c : Char) (hc : c ∈ l)
    (hns : isPySpace c = false) : stripChars l ≠ [] := by
  intro hnil
  unfold stripChars dropTrailingSpaces at hnil
  have h1 : (l.dropWhile isPySpace).reverse.dropWhile isPySpace = [] := by
    simpa using congrArg List.reverse hnil
  rw [List.dropWhile_eq_nil_iff] at h1
  have hc' : c ∈ l.dropWhile isPySpace ∨ c ∈ l.takeWhile isPySpace := by
    have := List.takeWhile_append_dropWhile (p := isPySpace) (l := l)
    rw [← this] at hc
    rcases List.mem_append.mp hc with h | h
    · exact Or.inr h
    · exact Or.inl h
  rcases hc' with h | h
  · have := h1 c (by simpa using h)
    rw [hns] at this; cases this
  · have := List.mem_takeWhile_imp h
    rw [hns] at this; cases this

/-! ### C3 and C7: webhook admission -/

/-- When the dedup record of the event's id is present (and the event
passes the type/id filters), the webhook does not enqueue, leaves the
dedup records unchanged, but still runs the rate-limit update; the reply
is `duplicate` or `rate_limited`. -/
theorem webhook_dedup_hit (st : WebState) (ev : WebhookEvent)
    (h1 : ev.typeWebhook = "incomingMessageReceived") (h2 : ev.idMessage ≠ "")
    (h3 : st.dedup ev.idMessage = true) :
    (webhook st ev).2.2 = false ∧
    (webhook st ev).1.dedup = st.dedup ∧
    (webhook st ev).1.rate = (checkRateLimit st.rate ev.chatId).2 ∧
    ((webhook st ev).2.1 = "duplicate" ∨ (webhook st ev).2.1 = "rate_limited") := by
  unfold webhook
  simp only [h1, ne_eq, not_true_eq_false, if_false, h2, if_neg]
  cases hA : (checkRateLimit st.rate ev.chatId).1
  · simp [hA]
  · simp [hA, h3]

/-- A `received` reply implies the filters passed and the dedup record of
the id is set afterwards. -/
theorem webhook_received (st : WebState) (ev : WebhookEvent)
    (h : (webhook st ev).2.1 = "received") :
    ev.idMessage ≠ "" ∧ (webhook st ev).1.dedup ev.idMessage = true := by
  unfold webhook at h ⊢
  by_cases h1 : ev.typeWebhook = "incomingMessageReceived"
  · simp only [h1, ne_eq, not_true_eq_false, if_false] at h ⊢
    by_cases h2 : ev.idMessage = ""
    · simp [h2] at h
    · simp only [h2, if_false] at h ⊢
      cases hA : (checkRateLimit st.rate ev.chatId).1
      · simp [hA] at h
      · simp only [hA, Bool.not_true, Bool.false_eq_true, if_false] at h ⊢
        by_cases h3 : st.dedup ev.idMessage
        · simp [h3] at h
        · simp [h3, h2]
  · simp [h1] at h

/-- C3 counterexample input: the duplicate `m1` is rejected as a
duplicate, yet the run mutates state: the chat's rate counter moves from
5 to 6, because `check_rate_limit` runs (and increments) before the dedup
check (`main.py:82` vs `main.py:87`). -/
theorem spec_c3_counterexample :
    (webhook stC3 evC3).2.1 = "duplicate" ∧ (webhook stC3 evC3).2.2 = false ∧
    stC3.rate "c@c.us" = some 5 ∧ (webhook stC3 evC3).1.rate "c@c.us" = some 6 :=
  ⟨by decide, by decide, by decide, by decide⟩

/-- C3 (amended): an inbound event whose message id was already seen
within the dedup window is rejected without being enqueued and without
touching the dedup records, but the per-chat rate-limit counter is still
updated first (created or incremented up to the ceiling); the reply is
`duplicate`, or `rate_limited` when the counter was already at the
ceiling. -/
theorem spec_c3_theorem (st : WebState) (ev : WebhookEvent)
    (h1 : ev.typeWebhook = "incomingMessageReceived") (h2 : ev.idMessage ≠ "")
    (h3 : st.dedup ev.idMessage = true) :
    (webhook st ev).2.2 = false ∧
    (webhook st ev).1.dedup = st.dedup ∧
    (webhook st ev).1.rate = (checkRateLimit st.rate ev.chatId).2 ∧
    ((webhook st ev).2.1 = "duplicate" ∨ (webhook st ev).2.1 = "rate_limited") :=
  webhook_dedup_hit st ev h1 h2 h3

/-- Witness for C3's amended theorem at the concrete duplicate event. -/
theorem spec_c3_witness :
    stC3.dedup evC3.idMessage = true ∧
    ((webhook stC3 evC3).2.2 = false ∧
     (webhook stC3 evC3).1.dedup = stC3.dedup ∧
     (webhook stC3 evC3).1.rate = (checkRateLimit stC3.rate evC3.chatId).2 ∧
     ((webhook stC3 evC3).2.1 = "duplicate" ∨ (webhook stC3 evC3).2.1 = "rate_limited")) :=
  ⟨by decide, spec_c3_theorem stC3 evC3 (by decide) (by decide) (by decide)⟩

/-- C7: once an event with a given message id has been admitted
(`received`), replaying any event with the same id within the dedup
window is never enqueued to the worker, hence produces no second outbound
send. -/
theorem spec_c7_theorem (st : WebState) (ev ev2 : WebhookEvent)
    (h : (webhook st ev).2.1 = "received")
    (h2 : ev2.idMessage = ev.idMessage) :
    (webhook (webhook st ev).1 ev2).2.2 = false := by
  obtain ⟨hid, hded⟩ := webhook_received st ev h
  set st2 := (webhook st ev).1
  unfold webhook
  by_cases ht : ev2.typeWebhook = "incomingMessageReceived"
  · simp only [ht, ne_eq, not_true_eq_false, if_false]
    have hid2 : ¬ ev2.idMessage = "" := by rw [h2]; exact hid
    simp only [hid2, if_false]
    cases hA : (checkRateLimit st2.rate ev2.chatId).1
    · simp [hA]
    · have hd : st2.dedup ev2.idMessage = true := by rw [h2]; exact hded
      simp [hA, hd]
  · simp [ht]

/-- Witness for C7 at a concrete admission followed by a replay. -/
theorem spec_c7_witness :
    (webhook stEmpty evC3).2.1 = "received" ∧
    (webhook (webhook stEmpty evC3).1 evC3).2.2 = false :=
  ⟨by decide, spec_c7_theorem stEmpty evC3 evC3 (by decide) rfl⟩

/-! ### C6: rate-limit ceiling -/

/-- The chat's counter after `n` admissions within one fresh window. -/
theorem rateAfter_self (chat : String) (n : Nat) (h : n ≤ RATE_LIMIT_MAX_REQUESTS) :
    rateAfter chat n chat = if n = 0 then none else some n := by
  induction n with
  | zero => rfl
  | succ k ih =>
    have hk := ih (Nat.le_of_succ_le h)
    show (checkRateLimit (rateAfter chat k) chat).2 chat = _
    unfold checkRateLimit
    rw [hk]
    by_cases hk0 : k = 0
    · subst hk0; simp
    · have hlt : ¬ RATE_LIMIT_MAX_REQUESTS ≤ k := by
        unfold RATE_LIMIT_MAX_REQUESTS at h ⊢; omega
      simp [hk0, hlt]

/-- C6: with ceiling 30 and a fresh window, the 30th event of a chat is
admitted by `check_rate_limit` and the 31st is dropped. -/
theorem spec_c6_theorem (chat : String) :
    admittedAt chat RATE_LIMIT_MAX_REQUESTS = true ∧
    admittedAt chat (RATE_LIMIT_MAX_REQUESTS + 1) = false := by
  constructor
  · show (checkRateLimit (rateAfter chat (RATE_LIMIT_MAX_REQUESTS - 1)) chat).1 = true
    unfold checkRateLimit
    rw [rateAfter_self chat (RATE_LIMIT_MAX_REQUESTS - 1) (by omega)]
    simp [RATE_LIMIT_MAX_REQUESTS]
  · show (checkRateLimit (rateAfter chat (RATE_LIMIT_MAX_REQUESTS + 1 - 1)) chat).1 = false
    unfold checkRateLimit
    rw [rateAfter_self chat (RATE_LIMIT_MAX_REQUESTS + 1 - 1) (by omega)]
    simp [RATE_LIMIT_MAX_REQUESTS]

/-! ### C8: group trigger policy -/

/-- C8: in a group chat a reply is triggered iff the persisted
`ai_enabled` flag is true, or the lowercased text contains the lowercased
nickname as a whole word, or it begins with the nickname followed by a
space or a comma; in particular, with nickname `"ботяра"` and the flag
off, `"ботяра привет"` triggers and `"привет всем"` does not. -/
theorem spec_c8_theorem :
    (∀ (cfg : Config) (ai : Bool) (text : String),
      shouldReplyInGroup cfg ai text = true ↔
        (ai = true ∨
         containsWholeWord (pyLower cfg.botNickname).data (pyLower text).data = true ∨
         pyStartsWith (pyLower text) (pyLower cfg.botNickname ++ " ") = true ∨
         pyStartsWith (pyLower text) (pyLower cfg.botNickname ++ ",") = true)) ∧
    shouldReplyInGroup cfgDefault false "ботяра привет" = true ∧
    shouldReplyInGroup cfgDefault false "привет всем" = false := by
  refine ⟨?_, by decide, by decide⟩
  intro cfg ai text
  unfold shouldReplyInGroup
  cases hw : containsWholeWord (pyLower cfg.botNickname).data (pyLower text).data
  · simp [hw, Bool.or_eq_true, or_assoc]
  · simp [hw]

/-- `containsSub` finds any explicit occurrence. -/
theorem containsSub_of_middle (n pre post : List Char) :
    containsSub n (pre ++ n ++ post) = true := by
  induction pre with
  | nil =>
    cases n with
    | nil => cases post <;> simp [containsSub]
    | cons a as =>
      show containsSub (a :: as) ((a :: as) ++ post) = true
      have hpre : (a :: as).isPrefixOf (a :: (as ++ post)) = true := by
        rw [List.isPrefixOf_iff_prefix]
        exact ⟨post, by simp⟩
      simp only [List.cons_append, containsSub, List.append_eq]
      rw [hpre]
      simp
  | cons c pcs ih =>
    show containsSub n (c :: (pcs ++ n ++ post)) = true
    simp only [containsSub]
    rw [ih]
    simp

/-! ### C9: quoted-audio resolution -/

/-- C9 counterexample input: the original message is fetchable with a
non-empty download URL and the sender name `"Алиса"`, but the
transcription comes back empty; the resolver returns the recognition
placeholder, which does not contain the sender's name. -/
theorem spec_c9_counterexample :
    envC9.quotedMsg = some { downloadUrl := "http://a", senderName := "Алиса" } ∧
    (transcribeQuotedAudio cfgDefault envC9 "c" "s1").1 =
      "[Голосовое сообщение - не удалось распознать]" ∧
    containsSub "Алиса".data ((transcribeQuotedAudio cfgDefault envC9 "c" "s1").1).data = false :=
  ⟨by decide, by decide, by decide⟩

/-- C9 (amended): when the quoted original is fetchable, has a non-empty
download URL, and the transcription succeeds with non-empty text, the
resolver's context string contains both the original sender's name and
the transcription; when the original cannot be fetched, or its download
URL is missing, or transcription fails or is empty, it returns one of the
fixed placeholder strings instead of raising. -/
theorem spec_c9_theorem (cfg : Config) (env : Env) (chatId stanzaId : String) :
    (∀ m t, env.quotedMsg = some m → m.downloadUrl ≠ "" →
      env.quotedStt = some t → t ≠ "" →
      containsSub m.senderName.data
        ((transcribeQuotedAudio cfg env chatId stanzaId).1).data = true ∧
      containsSub t.data ((transcribeQuotedAudio cfg env chatId stanzaId).1).data = true) ∧
    (env.quotedMsg = none →
      (transcribeQuotedAudio cfg env chatId stanzaId).1 = "[Голосовое сообщение]") ∧
    (∀ m, env.quotedMsg = some m → m.downloadUrl = "" →
      (transcribeQuotedAudio cfg env chatId stanzaId).1 =
        "[Голосовое сообщение - URL недоступен]") := by
  refine ⟨?_, ?_, ?_⟩
  · intro m t hm hurl ht htne
    have hres : (transcribeQuotedAudio cfg env chatId stanzaId).1 =
        "[Голосовое сообщение от " ++ m.senderName ++ "]: " ++ t := by
      unfold transcribeQuotedAudio
      rw [hm, ht]
      simp [hurl, htne]
    rw [hres]
    constructor
    · have hdata : ("[Голосовое сообщение от " ++ m.senderName ++ "]: " ++ t).data =
          "[Голосовое сообщение от ".data ++ m.senderName.data ++ ("]: " ++ t).data := by
        simp [String.data_append, List.append_assoc]
      rw [hdata]
      exact containsSub_of_middle _ _ _
    · have hdata : ("[Голосовое сообщение от " ++ m.senderName ++ "]: " ++ t).data =
          ("[Голосовое сообщение от " ++ m.senderName ++ "]: ").data ++ t.data ++ [] := by
        simp [String.data_append]
      rw [hdata]
      exact containsSub_of_middle _ _ _
  · intro hm
    unfold transcribeQuotedAudio
    rw [hm]
  · intro m hm hurl
    unfold transcribeQuotedAudio
    rw [hm]
    simp [hurl]

/-- Witness for C9's amended theorem: a successful non-empty transcription
yields a context string carrying both the sender name and the text. -/
theorem spec_c9_witness :
    containsSub "Алиса".data ((transcribeQuotedAudio cfgDefault envC9b "c" "s1").1).data = true ∧
    containsSub "привет мир".data
      ((transcribeQuotedAudio cfgDefault envC9b "c" "s1").1).data = true :=
  (spec_c9_theorem cfgDefault envC9b "c" "s1").1
    { downloadUrl := "http://a", senderName := "Алиса" } "привет мир"
    rfl (by decide) rfl (by decide)

/-! ### Pipeline helper lemmas -/

/-- A trace of pure media effects contains no sends, no persisted writes
and no LLM turn. -/
theorem counts_of_media (effs : List Effect) (h : ∀ e ∈ effs, isMediaEff e = true) :
    sendCount effs = 0 ∧ storeWriteCount effs = 0 ∧ chatLlmCount effs = 0 := by
  refine ⟨?_, ?_, ?_⟩
  · rw [sendCount, List.countP_eq_zero]
    intro e he hp
    have hm := h e he
    cases e <;> simp_all [isMediaEff, isSend]
  · rw [storeWriteCount, List.countP_eq_zero]
    intro e he hp
    have hm := h e he
    cases e <;> simp_all [isMediaEff, isStoreWrite]
  · rw [chatLlmCount, List.countP_eq_zero]
    intro e he hp
    have hm := h e he
    cases e <;> simp_all [isMediaEff, isChatLlm]

/-- The effects of the quoted-message resolver are media effects only. -/
theorem processQuoted_media (cfg : Config) (env : Env) (chatId : String) (q : QuotedMsg) :
    ∀ e ∈ (processQuotedMessage cfg env chatId q).2, isMediaEff e = true := by
  unfold processQuotedMessage transcribeQuotedAudio
  repeat' split
  all_goals intro e he
  all_goals simp at he
  all_goals
    first
    | (subst he; rfl)
    | (rcases he with rfl | rfl <;> rfl)

/-- The extended/quoted-type handlers only forward resolver effects. -/
theorem handleExt_media (cfg : Config) (env : Env) (c : String) (md : MessageData) :
    (∀ e ∈ (handleExtendedTextMessage cfg env c md).2.2, isMediaEff e = true) ∧
    (∀ e ∈ (handleQuotedMessage cfg env c md).2.2, isMediaEff e = true) := by
  constructor
  · unfold handleExtendedTextMessage
    split
    · exact processQuoted_media cfg env c _
    · intro e he; cases he
  · unfold handleQuotedMessage
    split
    · exact processQuoted_media cfg env c _
    · intro e he; cases he

/-- The audio handler's continuing result carries media effects only (the
transcribe-mode send appears only on the skip path). -/
theorem audio_res_false_media (cfg : Config) (env : Env) (c : String) (md : MessageData)
    (t : String) (effs : List Effect)
    (h : handleAudioMessage cfg env c md = .res t false effs) :
    ∀ e ∈ effs, isMediaEff e = true := by
  unfold handleAudioMessage at h
  repeat' split at h
  all_goals simp at h
  all_goals obtain ⟨h1, h2⟩ := h
  all_goals subst h2
  all_goals intro e he
  all_goals simp at he
  all_goals
    first
    | (subst he; rfl)
    | (rcases he with rfl | rfl <;> rfl)

/-- The image handler emits at most the download effect. -/
theorem image_media (cfg : Config) (c : String) (md : MessageData) :
    ∀ e ∈ (handleImageMessage cfg c md).2.2.2, isMediaEff e = true := by
  unfold handleImageMessage
  split
  · intro e he; cases he
  · intro e he; simp at he; subst he; rfl

/-- Effects attached to a continuing (`go`) extraction are media effects
only. -/
theorem extract_go_media (cfg : Config) (env : Env) (c : String) (md : MessageData)
    (effs : List Effect) (t : String) (q : Option String) (sc : Option Structured)
    (fp : Option String) (hm : Bool)
    (h : extractContent cfg env c md = .go effs t q sc fp hm) :
    ∀ e ∈ effs, isMediaEff e = true := by
  unfold extractContent at h
  repeat' split at h
  all_goals cases h
  all_goals
    first
    | simp
    | exact (handleExt_media cfg env c md).1
    | exact (handleExt_media cfg env c md).2
    | exact image_media cfg c md
    | (rename_i heq; exact audio_res_false_media cfg env c md _ _ heq)

/-! ### Command-dispatch lemmas -/

/-- Case elimination for `handleCommandsCore`: a property holds of the
dispatch result if it holds of every branch's result. -/
theorem handleCommandsCore_elim (cfg : Config) (env : Env) (cmd text c s : String) (g : Bool)
    (P : Bool × List Effect → Prop)
    (hAiOn : P (true, [Effect.setAiEnabled c true, Effect.sendText c "🤖 Автоответы включены."]))
    (hAiOff : P (true, [Effect.setAiEnabled c false, Effect.sendText c "😴 Автоответы выключены."]))
    (hReset : P (true, [Effect.clearHistory c, Effect.sendText c "🔄 Контекст сброшен."]))
    (hHelp : P (true, [Effect.sendText c (helpText cfg)]))
    (hTrans : P (true, [Effect.setTranscribeMode c (!env.transcribeMode),
        Effect.sendText c
          (if !env.transcribeMode then "🎙️ Режим транскрибации ВКЛ"
           else "🤖 Режим транскрибации ВЫКЛ")]))
    (hStats : P (true, [Effect.sendText c (statsText cfg env)]))
    (hModel : P (true, modelCmdEffects cfg env text c))
    (hSearch : P (true, searchCmdEffects env text c))
    (hDraw : P (true, drawCmdEffects env text c))
    (hSummary : P (true,
        if !g then [Effect.sendText c "Команда доступна только в группах."]
        else summaryCmdEffects cfg env c))
    (hBan : pyStartsWith (pyStrip text) "/ban " = true →
        P (true,
          if pyStrip (strDrop (pyStrip text) 5) ≠ "" then
            [Effect.blacklistAdd (pyStrip (strDrop (pyStrip text) 5)),
             Effect.sendText c ("🚫 " ++ pyStrip (strDrop (pyStrip text) 5) ++ " заблокирован")]
          else []))
    (hUnban : pyStartsWith (pyStrip text) "/unban " = true →
        P (true,
          if pyStrip (strDrop (pyStrip text) 7) ≠ "" then
            [Effect.blacklistRemove (pyStrip (strDrop (pyStrip text) 7)),
             Effect.sendText c ("✅ " ++ pyStrip (strDrop (pyStrip text) 7) ++ " разблокирован")]
          else []))
    (hBlacklist : P (true, [Effect.sendText c (blacklistText env)]))
    (hNone : P (false, [])) :
    P (handleCommandsCore cfg env cmd text c s g) := by
  unfold handleCommandsCore
  by_cases h1 : cmd = "/ai on"
  · rw [if_pos h1]; exact hAiOn
  rw [if_neg h1]
  by_cases h2 : cmd = "/ai off"
  · rw [if_pos h2]; exact hAiOff
  rw [if_neg h2]
  by_cases h3 : cmd = "/reset"
  · rw [if_pos h3]; exact hReset
  rw [if_neg h3]
  by_cases h4 : cmd = "/help"
  · rw [if_pos h4]; exact hHelp
  rw [if_neg h4]
  by_cases h5 : cmd = "/transcribe"
  · rw [if_pos h5]; exact hTrans
  rw [if_neg h5]
  by_cases h6 : cmd = "/stats"
  · rw [if_pos h6]; exact hStats
  rw [if_neg h6]
  by_cases h7 : (cmd = "/model" || pyStartsWith cmd "/model ") = true
  · rw [if_pos h7]; exact hModel
  rw [if_neg h7]
  by_cases h8 : (pyStartsWith cmd "/search " || cmd = "/search") = true
  · rw [if_pos h8]; exact hSearch
  rw [if_neg h8]
  by_cases h9 : (pyStartsWith cmd "/draw " || cmd = "/draw") = true
  · rw [if_pos h9]; exact hDraw
  rw [if_neg h9]
  by_cases h10 : cmd = "/summary"
  · rw [if_pos h10]; exact hSummary
  rw [if_neg h10]
  by_cases h11 : isAdminSender cfg s = true
  · rw [if_pos h11]
    by_cases h12 : pyStartsWith (pyStrip text) "/ban " = true
    · rw [if_pos h12]; exact hBan h12
    rw [if_neg h12]
    by_cases h13 : pyStartsWith (pyStrip text) "/unban " = true
    · rw [if_pos h13]; exact hUnban h13
    rw [if_neg h13]
    by_cases h14 : cmd = "/blacklist"
    · rw [if_pos h14]; exact hBlacklist
    rw [if_neg h14]
    exact hNone
  rw [if_neg h11]
  exact hNone


theorem chatLlm_modelCmd (cfg : Config) (env : Env) (text c : String) :
    chatLlmCount (modelCmdEffects cfg env text c) = 0 := by
  simp only [modelCmdEffects]
  repeat' split
  all_goals simp [chatLlmCount, List.countP_cons, List.countP_nil, isChatLlm]

theorem chatLlm_searchCmd (env : Env) (text c : String) :
    chatLlmCount (searchCmdEffects env text c) = 0 := by
  simp only [searchCmdEffects]
  repeat' split
  all_goals simp [chatLlmCount, List.countP_cons, List.countP_nil, isChatLlm]

theorem chatLlm_drawCmd (env : Env) (text c : String) :
    chatLlmCount (drawCmdEffects env text c) = 0 := by
  simp only [drawCmdEffects]
  repeat' split
  all_goals simp [chatLlmCount, List.countP_cons, List.countP_nil, List.countP_append, isChatLlm]

theorem chatLlm_summarizeOne (cfg : Config) (env : Env) (m : SumMsg) :
    chatLlmCount (summarizeOne cfg env m).2.2 = 0 := by
  simp only [summarizeOne]
  repeat' split
  all_goals simp [chatLlmCount, List.countP_cons, List.countP_nil, isChatLlm]

theorem chatLlm_summaryScan (cfg : Config) (env : Env) (l : List SumMsg) :
    chatLlmCount (summaryScan cfg env l).2.2 = 0 := by
  induction l with
  | nil => rfl
  | cons m rest ih =>
    simp only [summaryScan]
    rw [chatLlmCount, List.countP_append]
    have h1 := chatLlm_summarizeOne cfg env m
    rw [chatLlmCount] at h1 ih
    omega

theorem chatLlm_summaryCmd (cfg : Config) (env : Env) (c : String) :
    chatLlmCount (summaryCmdEffects cfg env c) = 0 := by
  simp only [summaryCmdEffects]
  have hs := chatLlm_summaryScan cfg env env.rawHistory.reverse
  rw [chatLlmCount] at hs
  repeat' split
  all_goals
    simp [chatLlmCount, List.countP_cons, List.countP_nil, List.countP_append, isChatLlm, hs]


theorem cmd_chatLlm (cfg : Config) (env : Env) (text c s : String) (g : Bool) :
    chatLlmCount (handleCommands cfg env text c s g).2 = 0 := by
  unfold handleCommands
  refine handleCommandsCore_elim cfg env (pyLower (pyStrip text)) text c s g
    (fun r => chatLlmCount r.2 = 0) ?_ ?_ ?_ ?_ ?_ ?_ ?_ ?_ ?_ ?_ ?_ ?_ ?_ ?_
  · simp [chatLlmCount, List.countP_cons, List.countP_nil, isChatLlm]
  · simp [chatLlmCount, List.countP_cons, List.countP_nil, isChatLlm]
  · simp [chatLlmCount, List.countP_cons, List.countP_nil, isChatLlm]
  · simp [chatLlmCount, List.countP_cons, List.countP_nil, isChatLlm]
  · simp [chatLlmCount, List.countP_cons, List.countP_nil, isChatLlm]
  · simp [chatLlmCount, List.countP_cons, List.countP_nil, isChatLlm]
  · exact chatLlm_modelCmd cfg env text c
  · exact chatLlm_searchCmd env text c
  · exact chatLlm_drawCmd env text c
  · split
    · simp [chatLlmCount, List.countP_cons, List.countP_nil, isChatLlm]
    · exact chatLlm_summaryCmd cfg env c
  · intro _
    split
    · simp [chatLlmCount, List.countP_cons, List.countP_nil, isChatLlm]
    · rfl
  · intro _
    split
    · simp [chatLlmCount, List.countP_cons, List.countP_nil, isChatLlm]
    · rfl
  · simp [chatLlmCount, List.countP_cons, List.countP_nil, isChatLlm]
  · rfl

theorem handleCommands_shape (cfg : Config) (env : Env) (text c s : String) (g : Bool) :
    (handleCommands cfg env text c s g).1 = true ∨
    handleCommands cfg env text c s g = (false, []) := by
  unfold handleCommands
  refine handleCommandsCore_elim cfg env (pyLower (pyStrip text)) text c s g
    (fun r => r.1 = true ∨ r = (false, [])) ?_ ?_ ?_ ?_ ?_ ?_ ?_ ?_ ?_ ?_ ?_ ?_ ?_ ?_
  all_goals first
    | (left; rfl)
    | (intro _; left; rfl)
    | (right; rfl)

theorem strip_rest_ne (text pre : String) (hlast : pre.data.getLast? = some ' ')
    (h : pyStartsWith (pyStrip text) pre = true) :
    pyStrip (strDrop (pyStrip text) pre.data.length) ≠ "" := by
  have h' : pre.data.isPrefixOf (stripChars text.data) = true := h
  rw [List.isPrefixOf_iff_prefix] at h'
  obtain ⟨rest, hrest⟩ := h'
  intro hcontra
  have hdata : stripChars ((stripChars text.data).drop pre.data.length) = [] :=
    congrArg String.data hcontra
  have hdrop : (stripChars text.data).drop pre.data.length = rest := by
    rw [← hrest]
    have h0 := @List.drop_append Char pre.data rest 0
    simp only [Nat.add_zero, List.drop_zero] at h0
    exact h0
  rw [hdrop] at hdata
  cases hr : rest with
  | nil =>
    subst hr
    rw [List.append_nil] at hrest
    obtain ⟨ys, hys⟩ := List.getLast?_eq_some_iff.mp hlast
    have hsp := stripChars_last_not_space text.data ' ' ys (by rw [← hrest]; exact hys)
    simp [isPySpace] at hsp
  | cons r rs =>
    have hrne : rest ≠ [] := by rw [hr]; simp
    obtain ⟨cl, hcl⟩ : ∃ cl, rest.getLast? = some cl := by
      cases hgl : rest.getLast? with
      | none => exact absurd (List.getLast?_eq_none_iff.mp hgl) hrne
      | some x => exact ⟨x, rfl⟩
    have hslast : (stripChars text.data).getLast? = some cl := by
      rw [← hrest, List.getLast?_append, hcl]
      rfl
    obtain ⟨ys, hys⟩ := List.getLast?_eq_some_iff.mp hslast
    have hns := stripChars_last_not_space text.data cl ys hys
    have hmem : cl ∈ rest := List.mem_of_getLast?_eq_some hcl
    exact stripChars_ne_nil rest cl hmem hns hdata


theorem send_modelCmd (cfg : Config) (env : Env) (text c : String) :
    1 ≤ sendCount (modelCmdEffects cfg env text c) := by
  simp only [modelCmdEffects]
  repeat' split
  all_goals simp [sendCount, List.countP_cons, List.countP_nil, isSend]

theorem send_searchCmd (env : Env) (text c : String) :
    1 ≤ sendCount (searchCmdEffects env text c) := by
  simp only [searchCmdEffects]
  repeat' split
  all_goals simp [sendCount, List.countP_cons, List.countP_nil, isSend]

theorem send_drawCmd (env : Env) (text c : String) :
    1 ≤ sendCount (drawCmdEffects env text c) := by
  simp only [drawCmdEffects]
  repeat' split
  all_goals simp [sendCount, List.countP_cons, List.countP_nil, List.countP_append, isSend]

theorem send_summaryCmd (cfg : Config) (env : Env) (c : String) :
    1 ≤ sendCount (summaryCmdEffects cfg env c) := by
  simp only [summaryCmdEffects]
  rw [sendCount, List.countP_cons]
  simp [isSend]

theorem cmd_handled_send (cfg : Config) (env : Env) (text c s : String) (g : Bool)
    (h : (handleCommands cfg env text c s g).1 = true) :
    1 ≤ sendCount (handleCommands cfg env text c s g).2 := by
  revert h
  unfold handleCommands
  refine handleCommandsCore_elim cfg env (pyLower (pyStrip text)) text c s g
    (fun r => r.1 = true → 1 ≤ sendCount r.2) ?_ ?_ ?_ ?_ ?_ ?_ ?_ ?_ ?_ ?_ ?_ ?_ ?_ ?_
  · intro _; simp [sendCount, List.countP_cons, List.countP_nil, isSend]
  · intro _; simp [sendCount, List.countP_cons, List.countP_nil, isSend]
  · intro _; simp [sendCount, List.countP_cons, List.countP_nil, isSend]
  · intro _; simp [sendCount, List.countP_cons, List.countP_nil, isSend]
  · intro _; simp [sendCount, List.countP_cons, List.countP_nil, isSend]
  · intro _; simp [sendCount, List.countP_cons, List.countP_nil, isSend]
  · intro _; exact send_modelCmd cfg env text c
  · intro _; exact send_searchCmd env text c
  · intro _; exact send_drawCmd env text c
  · intro _
    split
    · simp [sendCount, List.countP_cons, List.countP_nil, isSend]
    · exact send_summaryCmd cfg env c
  · intro hban _
    have hne := strip_rest_ne text "/ban " (by decide) hban
    rw [if_pos (by simpa using hne)]
    simp [sendCount, List.countP_cons, List.countP_nil, isSend]
  · intro hunban _
    have hne := strip_rest_ne text "/unban " (by decide) hunban
    rw [if_pos (by simpa using hne)]
    simp [sendCount, List.countP_cons, List.countP_nil, isSend]
  · intro _; simp [sendCount, List.countP_cons, List.countP_nil, isSend]
  · intro hfalse; cases hfalse

theorem handleCommands_empty (cfg : Config) (env : Env) (c s : String) (g : Bool) :
    handleCommands cfg env "" c s g = (false, []) := by
  unfold handleCommands handleCommandsCore
  simp [isAdminSender, pyStrip, pyLower, stripChars, dropTrailingSpaces, pyStartsWith]


/-! ### C1, C4, C5, C10, C2: pipeline-level claims -/

/-- C1 (amended): for a private-chat text message on which the LLM call
fails (provider raises or API key missing), the pipeline sends the failure
text and nevertheless appends BOTH the user turn and the assistant turn
(whose content is the failure text) to history — `get_response` converts
failures into returned strings, so the orchestrator cannot distinguish
them from success and runs its unconditional history writes
(worker.py:144-145). -/
theorem spec_c1_theorem (cfg : Config) (env : Env) (ev : InboundEvent)
    (h1 : ev.typeWebhook = "incomingMessageReceived")
    (h2 : env.blacklisted = false)
    (h3 : ev.messageData.typeMessage = "textMessage")
    (h4 : ev.messageData.textMessage ≠ "")
    (h5 : (handleCommands cfg env ev.messageData.textMessage ev.chatId ev.senderId
            (pyEndsWith ev.chatId "@g.us")).1 = false)
    (h6 : pyEndsWith ev.chatId "@g.us" = false)
    (h7 : llmFailed env = true) :
    processMessage cfg env ev =
      [Effect.chatLlmTurn,
       Effect.addHistory ev.chatId "user" ev.messageData.textMessage,
       Effect.addHistory ev.chatId "assistant" (llmGetResponse cfg env),
       Effect.sendText ev.chatId (llmGetResponse cfg env)] ∧
    (llmGetResponse cfg env = "Ошибка конфигурации: API ключ не настроен" ∨
     llmGetResponse cfg env =
       "Ошибка модели " ++ pyOr env.chatModel cfg.openrouterModel ++ ". Попробуйте /model для списка.") := by
  have hex : extractContent cfg env ev.chatId ev.messageData =
      .go [] ev.messageData.textMessage none none none false := by
    unfold extractContent
    rw [if_pos h3]
  have hnil : (handleCommands cfg env ev.messageData.textMessage ev.chatId ev.senderId
      (pyEndsWith ev.chatId "@g.us")).2 = [] := by
    rcases handleCommands_shape cfg env ev.messageData.textMessage ev.chatId ev.senderId
        (pyEndsWith ev.chatId "@g.us") with ht | hf
    · rw [h5] at ht; cases ht
    · rw [hf]
  rw [h6] at h5 hnil
  constructor
  · simp [processMessage, hex, h1, h2, h4, h5, h6, hnil]
  · unfold llmFailed at h7
    unfold llmGetResponse
    cases hA : env.apiKeyPresent
    · left; simp [hA]
    · right
      rw [hA] at h7
      simp at h7
      simp [hA, h7]


/-- C4 (amended): for a group-chat text message that produces an LLM
reply, the orchestrator DOES append the user turn to history again:
the trace holds the group capture (`"sender: text"`, worker.py:116), then
the conversational turn, then a second user-role append of the bare text
(worker.py:144), the assistant turn and the send — the user turn is
stored twice. -/
theorem spec_c4_theorem (cfg : Config) (env : Env) (ev : InboundEvent)
    (h1 : ev.typeWebhook = "incomingMessageReceived")
    (h2 : env.blacklisted = false)
    (h3 : ev.messageData.typeMessage = "textMessage")
    (h4 : ev.messageData.textMessage ≠ "")
    (h5 : (handleCommands cfg env ev.messageData.textMessage ev.chatId ev.senderId
            (pyEndsWith ev.chatId "@g.us")).1 = false)
    (h6 : pyEndsWith ev.chatId "@g.us" = true)
    (h7 : shouldReplyInGroup cfg env.aiEnabled ev.messageData.textMessage = true) :
    processMessage cfg env ev =
      [Effect.addHistory ev.chatId "user"
         (ev.senderName ++ ": " ++ ev.messageData.textMessage),
       Effect.chatLlmTurn,
       Effect.addHistory ev.chatId "user" ev.messageData.textMessage,
       Effect.addHistory ev.chatId "assistant" (llmGetResponse cfg env),
       Effect.sendText ev.chatId (llmGetResponse cfg env)] ∧
    userHistCount (processMessage cfg env ev) = 2 := by
  have hex : extractContent cfg env ev.chatId ev.messageData =
      .go [] ev.messageData.textMessage none none none false := by
    unfold extractContent
    rw [if_pos h3]
  have hnil : (handleCommands cfg env ev.messageData.textMessage ev.chatId ev.senderId
      (pyEndsWith ev.chatId "@g.us")).2 = [] := by
    rcases handleCommands_shape cfg env ev.messageData.textMessage ev.chatId ev.senderId
        (pyEndsWith ev.chatId "@g.us") with ht | hf
    · rw [h5] at ht; cases ht
    · rw [hf]
  rw [h6] at h5 hnil
  have htrace : processMessage cfg env ev =
      [Effect.addHistory ev.chatId "user"
         (ev.senderName ++ ": " ++ ev.messageData.textMessage),
       Effect.chatLlmTurn,
       Effect.addHistory ev.chatId "user" ev.messageData.textMessage,
       Effect.addHistory ev.chatId "assistant" (llmGetResponse cfg env),
       Effect.sendText ev.chatId (llmGetResponse cfg env)] := by
    simp [processMessage, hex, h1, h2, h4, h5, h6, hnil, h7, groupStoreContent, h3]
  refine ⟨htrace, ?_⟩
  rw [htrace]
  simp [userHistCount, List.countP_cons, List.countP_nil, isUserHistoryAppend]

/-- C5 (amended): for an image message whose download succeeded, the
downloaded file is removed at the end of every run that reaches the
response orchestrator (no command matched — image text always starts with
"Пользователь", so none can — and either the chat is private or the group
trigger fires).  The group-chat run where no reply is triggered returns
at worker.py:120 before the cleanup at worker.py:151 and leaks the file
(see the counterexample). -/
theorem spec_c5_theorem (cfg : Config) (env : Env) (ev : InboundEvent)
    (h1 : ev.typeWebhook = "incomingMessageReceived")
    (h2 : env.blacklisted = false)
    (h3 : ev.messageData.typeMessage = "imageMessage")
    (h4 : ev.messageData.downloadUrl ≠ "")
    (h5 : env.imageDownloadOk = true)
    (h6 : (handleCommands cfg env
            ("Пользователь прислал изображение. Подпись: " ++
              ev.messageData.caption.getD "Пользователь прислал изображение.")
            ev.chatId ev.senderId (pyEndsWith ev.chatId "@g.us")).1 = false)
    (h7 : pyEndsWith ev.chatId "@g.us" = false ∨
          shouldReplyInGroup cfg env.aiEnabled
            ("Пользователь прислал изображение. Подпись: " ++
              ev.messageData.caption.getD "Пользователь прислал изображение.") = true) :
    hasEff (processMessage cfg env ev)
      (Effect.removeFile
        (cfg.mediaDir ++ "/" ++ ev.chatId ++ "_" ++ ev.messageData.idMessage ++ ".jpg")) =
      true := by
  have hex : extractContent cfg env ev.chatId ev.messageData =
      .go [Effect.downloadFile ev.messageData.downloadUrl
            (cfg.mediaDir ++ "/" ++ ev.chatId ++ "_" ++ ev.messageData.idMessage ++ ".jpg")]
          ("Пользователь прислал изображение. Подпись: " ++
            ev.messageData.caption.getD "Пользователь прислал изображение.")
          none
          (some { text := ev.messageData.caption.getD "Пользователь прислал изображение."
                  files := [cfg.mediaDir ++ "/" ++ ev.chatId ++ "_" ++
                    ev.messageData.idMessage ++ ".jpg"] })
          (some (cfg.mediaDir ++ "/" ++ ev.chatId ++ "_" ++ ev.messageData.idMessage ++ ".jpg"))
          true := by
    unfold extractContent handleImageMessage
    simp [h3, h4]
  have htext : ("Пользователь прислал изображение. Подпись: " ++
      ev.messageData.caption.getD "Пользователь прислал изображение.") ≠ "" := by
    intro hc
    have hd := congrArg String.data hc
    rw [String.data_append] at hd
    exact absurd (List.append_eq_nil.mp hd).1 (by decide)
  have hnil : (handleCommands cfg env
      ("Пользователь прислал изображение. Подпись: " ++
        ev.messageData.caption.getD "Пользователь прислал изображение.")
      ev.chatId ev.senderId (pyEndsWith ev.chatId "@g.us")).2 = [] := by
    rcases handleCommands_shape cfg env
        ("Пользователь прислал изображение. Подпись: " ++
          ev.messageData.caption.getD "Пользователь прислал изображение.")
        ev.chatId ev.senderId (pyEndsWith ev.chatId "@g.us") with ht | hf
    · rw [h6] at ht; cases ht
    · rw [hf]
  rcases h7 with h7 | h7
  · rw [h7] at h6 hnil
    simp [processMessage, hex, h1, h2, htext, h6, hnil, h7, h5, hasEff]
  · simp [processMessage, hex, h1, h2, htext, h6, hnil, h7, h5, hasEff]

/-- C10: an admitted event whose message type is none of the handled
variants, or whose extracted text content is empty, terminates silently:
the pipeline emits no outbound send and writes no history, settings or
blacklist record. -/
theorem spec_c10_theorem (cfg : Config) (env : Env) (ev : InboundEvent)
    (h : ev.messageData.typeMessage ∉ handledTypes ∨
         ∃ effs q sc fp hm,
           extractContent cfg env ev.chatId ev.messageData = .go effs "" q sc fp hm) :
    sendCount (processMessage cfg env ev) = 0 ∧
    storeWriteCount (processMessage cfg env ev) = 0 := by
  rcases h with h | ⟨effs, q, sc, fp, hm, hex⟩
  · simp [handledTypes] at h
    obtain ⟨n1, n2, n3, n4, n5, n6, n7⟩ := h
    have hex : extractContent cfg env ev.chatId ev.messageData =
        .go [] "" none none none false := by
      unfold extractContent
      simp [n1, n2, n3, n4, n5, n6, n7]
    constructor <;> simp [processMessage, hex, ite_self, sendCount, storeWriteCount,
      List.countP_nil]
  · have hc := counts_of_media effs (extract_go_media cfg env ev.chatId ev.messageData
      effs "" q sc fp hm hex)
    constructor
    · simp only [processMessage, hex]
      split
      · rfl
      split
      · rfl
      · simpa [sendCount, List.countP_append, List.countP_nil] using hc.1
    · simp only [processMessage, hex]
      split
      · rfl
      split
      · rfl
      · simpa [storeWriteCount, List.countP_append, List.countP_nil] using hc.2.1

/-- C2 (amended): every recognised command is terminal — the recogniser
returns true, the pipeline's trace is exactly the extraction effects
followed by the command's own effects, and the conversational LLM turn is
never invoked — and it sends at least one reply; but not exactly one:
`/search`/`/draw` with arguments and `/summary` first send a progress
message (see the counterexample). -/
theorem spec_c2_theorem :
    (∀ (cfg : Config) (env : Env) (text c s : String) (g : Bool),
        (handleCommands cfg env text c s g).1 = true →
        1 ≤ sendCount (handleCommands cfg env text c s g).2 ∧
        chatLlmCount (handleCommands cfg env text c s g).2 = 0) ∧
    (∀ (cfg : Config) (env : Env) (ev : InboundEvent) (effs : List Effect) (t : String)
        (q : Option String) (sc : Option Structured) (fp : Option String) (hm : Bool),
        ev.typeWebhook = "incomingMessageReceived" →
        env.blacklisted = false →
        extractContent cfg env ev.chatId ev.messageData = .go effs t q sc fp hm →
        (handleCommands cfg env t ev.chatId ev.senderId (pyEndsWith ev.chatId "@g.us")).1 =
          true →
        processMessage cfg env ev =
          effs ++ (handleCommands cfg env t ev.chatId ev.senderId
            (pyEndsWith ev.chatId "@g.us")).2 ∧
        chatLlmCount (processMessage cfg env ev) = 0) := by
  constructor
  · intro cfg env text c s g h
    exact ⟨cmd_handled_send cfg env text c s g h, cmd_chatLlm cfg env text c s g⟩
  · intro cfg env ev effs t q sc fp hm h1 h2 hex hcmd
    by_cases ht : t = ""
    · subst ht
      rw [handleCommands_empty] at hcmd
      cases hcmd
    have htrace : processMessage cfg env ev =
        effs ++ (handleCommands cfg env t ev.chatId ev.senderId
          (pyEndsWith ev.chatId "@g.us")).2 := by
      simp [processMessage, hex, h1, h2, ht, hcmd]
    refine ⟨htrace, ?_⟩
    rw [htrace, chatLlmCount, List.countP_append]
    have hmc := (counts_of_media effs
      (extract_go_media cfg env ev.chatId ev.messageData effs t q sc fp hm hex)).2.2
    have hcc := cmd_chatLlm cfg env t ev.chatId ev.senderId (pyEndsWith ev.chatId "@g.us")
    rw [chatLlmCount] at hmc hcc
    omega



/-- C1 counterexample input: a private text message with the provider
raising; the claim says no history is written for the turn, but the run
writes two history rows (the user turn and the error-text assistant
turn) alongside its single send. -/
theorem spec_c1_counterexample :
    envC1.llmOutcome = none ∧
    sendCount (processMessage cfgDefault envC1 evC1) = 1 ∧
    histWriteCount (processMessage cfgDefault envC1 evC1) = 2 :=
  ⟨rfl, by decide, by decide⟩

/-- Witness for C1's amended theorem at the concrete failing run. -/
theorem spec_c1_witness :
    processMessage cfgDefault envC1 evC1 =
      [Effect.chatLlmTurn,
       Effect.addHistory evC1.chatId "user" evC1.messageData.textMessage,
       Effect.addHistory evC1.chatId "assistant" (llmGetResponse cfgDefault envC1),
       Effect.sendText evC1.chatId (llmGetResponse cfgDefault envC1)] ∧
    (llmGetResponse cfgDefault envC1 = "Ошибка конфигурации: API ключ не настроен" ∨
     llmGetResponse cfgDefault envC1 =
       "Ошибка модели " ++ pyOr envC1.chatModel cfgDefault.openrouterModel ++
         ". Попробуйте /model для списка.") :=
  spec_c1_theorem cfgDefault envC1 evC1 rfl rfl rfl (by decide) (by decide) (by decide) rfl

/-- C2 counterexample input: `/search погода` is recognised and sends two
replies (progress message and result), refuting "exactly one reply". -/
theorem spec_c2_counterexample :
    (handleCommands cfgDefault envDefault "/search погода" "c@c.us" "c@c.us" false).1 = true ∧
    sendCount (handleCommands cfgDefault envDefault "/search погода" "c@c.us" "c@c.us" false).2 = 2 :=
  ⟨by decide, by decide⟩

/-- Witness for C2's amended theorem at the `/help` command. -/
theorem spec_c2_witness :
    (1 ≤ sendCount (handleCommands cfgDefault envDefault "/help" "c@c.us" "c@c.us" false).2 ∧
     chatLlmCount (handleCommands cfgDefault envDefault "/help" "c@c.us" "c@c.us" false).2 = 0) ∧
    (processMessage cfgDefault envDefault (mkTextEvent "c@c.us" "/help") =
       [] ++ (handleCommands cfgDefault envDefault "/help" "c@c.us" "c@c.us"
         (pyEndsWith "c@c.us" "@g.us")).2 ∧
     chatLlmCount (processMessage cfgDefault envDefault (mkTextEvent "c@c.us" "/help")) = 0) :=
  ⟨spec_c2_theorem.1 cfgDefault envDefault "/help" "c@c.us" "c@c.us" false (by decide),
   spec_c2_theorem.2 cfgDefault envDefault (mkTextEvent "c@c.us" "/help") [] "/help"
     none none none false rfl rfl rfl (by decide)⟩

/-- C4 counterexample input: a group text message with auto-replies on;
the run appends two user-role history rows — `"User: привет"` from the
group capture and the bare `"привет"` from the orchestrator — refuting
"only the assistant turn is appended after the response". -/
theorem spec_c4_counterexample :
    userHistCount (processMessage cfgDefault envC4 evC4) = 2 ∧
    hasEff (processMessage cfgDefault envC4 evC4)
      (Effect.addHistory "123@g.us" "user" "User: привет") = true ∧
    hasEff (processMessage cfgDefault envC4 evC4)
      (Effect.addHistory "123@g.us" "user" "привет") = true :=
  ⟨by decide, by decide, by decide⟩

/-- Witness for C4's amended theorem at the concrete group run. -/
theorem spec_c4_witness :
    processMessage cfgDefault envC4 evC4 =
      [Effect.addHistory evC4.chatId "user"
         (evC4.senderName ++ ": " ++ evC4.messageData.textMessage),
       Effect.chatLlmTurn,
       Effect.addHistory evC4.chatId "user" evC4.messageData.textMessage,
       Effect.addHistory evC4.chatId "assistant" (llmGetResponse cfgDefault envC4),
       Effect.sendText evC4.chatId (llmGetResponse cfgDefault envC4)] ∧
    userHistCount (processMessage cfgDefault envC4 evC4) = 2 :=
  spec_c4_theorem cfgDefault envC4 evC4 rfl rfl rfl (by decide) (by decide) (by decide)
    (by decide)

/-- C5 counterexample input: an image message in a group chat with
auto-replies off and no nickname mention; the file is downloaded, no
reply is triggered, and the run ends with no `removeFile` — the media
file survives the pipeline run. -/
theorem spec_c5_counterexample :
    hasEff (processMessage cfgDefault envDefault evC5)
      (Effect.downloadFile "http://x/img" "media/123@g.us_m9.jpg") = true ∧
    hasEff (processMessage cfgDefault envDefault evC5)
      (Effect.removeFile "media/123@g.us_m9.jpg") = false ∧
    sendCount (processMessage cfgDefault envDefault evC5) = 0 :=
  ⟨by decide, by decide, by decide⟩

/-- Witness for C5's amended theorem at a private-chat image run. -/
theorem spec_c5_witness :
    hasEff (processMessage cfgDefault envDefault evC5b)
      (Effect.removeFile
        (cfgDefault.mediaDir ++ "/" ++ evC5b.chatId ++ "_" ++
          evC5b.messageData.idMessage ++ ".jpg")) = true :=
  spec_c5_theorem cfgDefault envDefault evC5b rfl rfl rfl (by decide) rfl (by decide)
    (Or.inl (by decide))

/-- Witness for C10 at a sticker message (unhandled type). -/
theorem spec_c10_witness :
    sendCount (processMessage cfgDefault envDefault evC10) = 0 ∧
    storeWriteCount (processMessage cfgDefault envDefault evC10) = 0 :=
  spec_c10_theorem cfgDefault envDefault evC10 (Or.inl (by decide))


end WABot
